import Mathlib

/- Shallow embedding of the inhoustonagentes repository: the ElevenLabs
   consumption aggregator, the batch outbound dispatcher
   (src/services/elevenlabs_service.py) and the webhook HMAC verification
   plus two panel endpoint call sites (src/api/main.py).

   Modelling conventions: Python JSON values are modelled by `JVal`,
   Python floats by ℚ (the claims do not depend on IEEE rounding),
   the HTTP layer by an explicit oracle (call index → request → response)
   together with a trace of the requests issued. -/

set_option maxRecDepth 40000

inductive JVal where
  | jnull
  | jbool (b : Bool)
  | jnum (q : ℚ)
  | jstr (s : String)
  | jarr (xs : List JVal)
  | jobj (fields : List (String × JVal))

/-- Python dict lookup (keys are unique in a real dict, first match). -/
def jget : List (String × JVal) → String → Option JVal
  | [], _ => none
  | (k1, v) :: t, k => if k1 = k then some v else jget t k

/-- Python truthiness of a JSON value. -/
def JVal.truthy : JVal → Bool
  | .jnull => false
  | .jbool b => b
  | .jnum q => q != 0
  | .jstr s => s != ""
  | .jarr xs => !xs.isEmpty
  | .jobj fs => !fs.isEmpty

/-- Python `d.get(k)` with default `None`. -/
def pyGet (fs : List (String × JVal)) (k : String) : JVal :=
  (jget fs k).getD .jnull

/-- Python `a or b` on values (falsy left operand selects the right). -/
def pyOr (a b : JVal) : JVal :=
  if a.truthy then a else b

/-- Decimal numeral parser standing in for Python float(str) on plain
    decimal literals (exponents, inf and nan are not exercised here). -/
def parseDecQ (s : String) : Option ℚ :=
  let cs := s.trim.data
  let signAndRest : ℚ × List Char :=
    match cs with
    | '-' :: t => (-1, t)
    | '+' :: t => (1, t)
    | _ => (1, cs)
  let sign := signAndRest.1
  let cs2 := signAndRest.2
  let intPart := cs2.takeWhile Char.isDigit
  let rest := cs2.dropWhile Char.isDigit
  let natOf : List Char → ℕ := fun l => l.foldl (fun a c => a * 10 + (c.toNat - 48)) 0
  match rest with
  | [] =>
      if intPart.isEmpty then none
      else some (sign * (natOf intPart : ℚ))
  | '.' :: frac =>
      if frac.all Char.isDigit && !(intPart.isEmpty && frac.isEmpty) then
        some (sign * ((natOf intPart : ℚ) + (natOf frac : ℚ) / ((10 : ℚ) ^ frac.length)))
      else none
  | _ => none

/-- Python float(x) as a partial function (None and containers raise). -/
def pyFloatQ : JVal → Option ℚ
  | .jnum q => some q
  | .jbool b => some (if b then 1 else 0)
  | .jstr s => parseDecQ s
  | _ => none

/-- _safe_float from src/services/elevenlabs_service.py lines 86-90. -/
def _safe_float (x : JVal) (d : ℚ) : ℚ :=
  (pyFloatQ x).getD d

/-- Python int(x) as a partial function (truncation toward zero). -/
def pyIntZ : JVal → Option ℤ
  | .jnum q => some (q.num.tdiv q.den)
  | .jbool b => some (if b then 1 else 0)
  | .jstr s =>
      let cs := s.trim.data
      let body : List Char :=
        match cs with
        | '-' :: t => t
        | '+' :: t => t
        | _ => cs
      if !body.isEmpty && body.all Char.isDigit then
        let n : ℕ := body.foldl (fun a c => a * 10 + (c.toNat - 48)) 0
        some (if cs.head? = some '-' then -(n : ℤ) else (n : ℤ))
      else none
  | _ => none

/-- _safe_int from src/services/elevenlabs_service.py lines 93-97. -/
def _safe_int (x : JVal) (d : ℤ) : ℤ :=
  (pyIntZ x).getD d

/-- _extract_items helper: first of the candidate keys holding a list. -/
def firstListKey (fs : List (String × JVal)) : List String → Option (List JVal)
  | [] => none
  | k :: ks =>
      match jget fs k with
      | some (.jarr xs) => some xs
      | _ => firstListKey fs ks

/-- _extract_items from src/services/elevenlabs_service.py lines 135-145. -/
def _extract_items : JVal → List JVal
  | .jobj fs =>
      match firstListKey fs ["data", "conversations", "items", "results"] with
      | some xs => xs
      | none => []
  | .jarr xs => xs
  | _ => []

/-- _find_first_numeric_by_keys from lines 148-152: first candidate key
    present with a non-None value, coerced through _safe_float. -/
def _find_first_numeric_by_keys (c : List (String × JVal)) : List String → Option ℚ
  | [] => none
  | k :: ks =>
      match jget c k with
      | some .jnull => _find_first_numeric_by_keys c ks
      | some v => some (_safe_float v 0)
      | none => _find_first_numeric_by_keys c ks

def lowerChars (s : String) : List Char :=
  s.data.map Char.toLower

def isInfixChars (needle : List Char) : List Char → Bool
  | [] => needle.isEmpty
  | c :: t => needle.isPrefixOf (c :: t) || isInfixChars needle t

/-- Python isinstance(v, (int, float)); bool is a subclass of int. -/
def isPyNumeric : JVal → Bool
  | .jnum _ => true
  | .jbool _ => true
  | _ => false

/-- _find_numeric_contains from lines 155-163: first key of the dict that
    contains the needle (case-insensitive) with a numeric value. -/
def _find_numeric_contains (c : List (String × JVal)) (needle : String) : Option ℚ :=
  let n := lowerChars needle
  match c.find? (fun kv => isPyNumeric kv.2 && isInfixChars n (lowerChars kv.1)) with
  | some kv => some (_safe_float kv.2 0)
  | none => none

/-- Python `a or b` on an optional float where 0.0 is also falsy
    (used by the usd cascade in _normalize_conversations_list). -/
def pyOrF (a b : Option ℚ) : Option ℚ :=
  match a with
  | some q => if q = 0 then b else some q
  | none => b

/-- The per-record credit cascade of _normalize_conversations_list,
    lines 184-220: direct candidate keys, then usage/billing/pricing
    sub-objects, then any key containing "credit", then derivation from a
    USD amount divided by USD_PER_CREDIT. With none of these present the
    record contributes 0 credits (there is no duration-based estimate). -/
def recordCredits (usd_per_credit : ℚ) (c : List (String × JVal)) : ℚ :=
  let cr := _find_first_numeric_by_keys c
    ["credits", "credits_consumed", "billable_credits", "usage_credits",
     "cost_credits", "total_credits"]
  let cr :=
    match cr with
    | some q => some q
    | none =>
        match jget c "usage" with
        | some (.jobj u) => _find_first_numeric_by_keys u ["credits"]
        | _ => none
  let cr :=
    match cr with
    | some q => some q
    | none =>
        match jget c "billing" with
        | some (.jobj b) => _find_first_numeric_by_keys b ["credits"]
        | _ => none
  let cr :=
    match cr with
    | some q => some q
    | none =>
        match jget c "pricing" with
        | some (.jobj p) => _find_first_numeric_by_keys p ["credits"]
        | _ => none
  let cr :=
    match cr with
    | some q => some q
    | none => _find_numeric_contains c "credit"
  let cr :=
    match cr with
    | some q => some q
    | none =>
        let usd := _find_first_numeric_by_keys c ["usd_spent", "cost_usd", "total_cost_usd"]
        let usd :=
          match jget c "usage" with
          | some (.jobj u) => pyOrF usd (_find_first_numeric_by_keys u ["usd", "cost_usd"])
          | _ => usd
        let usd :=
          match jget c "billing" with
          | some (.jobj b) => pyOrF usd (_find_first_numeric_by_keys b ["usd", "total_usd", "cost_usd"])
          | _ => usd
        let usd :=
          match jget c "pricing" with
          | some (.jobj p) => pyOrF usd (_find_first_numeric_by_keys p ["usd"])
          | _ => usd
        let usd :=
          match usd with
          | some q => some q
          | none => _find_numeric_contains c "usd"
        match usd with
        | some u => some (_safe_float (.jnum u) 0 / usd_per_credit)
        | none => none
  cr.getD 0

/-- The per-record duration of _normalize_conversations_list,
    lines 222-246: alias keys, then duration_ms, then end-start unix. -/
def recordDuration (c : List (String × JVal)) : ℚ :=
  let dsec := _find_first_numeric_by_keys c
    ["duration_secs", "duration_seconds", "call_duration_seconds", "seconds",
     "total_duration_seconds"]
  let dsec :=
    match dsec with
    | some q => some q
    | none =>
        if (jget c "duration_ms").isSome then
          some (_safe_float (pyGet c "duration_ms") 0 / 1000)
        else none
  match dsec with
  | some q => q
  | none =>
      let start_ts := pyOr (pyGet c "call_start_unix") (pyOr (pyGet c "start_unix")
        (pyOr (pyGet c "started_at_unix") (pyGet c "start_time_unix")))
      let end_ts := pyOr (pyGet c "call_end_unix") (pyOr (pyGet c "end_unix")
        (pyOr (pyGet c "ended_at_unix") (pyGet c "end_time_unix")))
      if start_ts.truthy && end_ts.truthy then
        max 0 (_safe_float end_ts 0 - _safe_float start_ts 0)
      else 0

structure Metrics where
  calls : ℤ
  credits : ℚ
  duration_secs : ℚ
  deriving DecidableEq

/-- One item of the page loop of _normalize_conversations_list: every
    dict item counts as one call, credits and duration via the cascades;
    non-dict items are skipped. No other field of the record (in
    particular no success indicator and no window boundary) is
    consulted. -/
def nclStep (usd_per_credit : ℚ) (m : Metrics) (it : JVal) : Metrics :=
  match it with
  | .jobj c =>
      { calls := m.calls + 1,
        credits := m.credits + _safe_float (.jnum (recordCredits usd_per_credit c)) 0,
        duration_secs := m.duration_secs + _safe_float (.jnum (recordDuration c)) 0 }
  | _ => m

/-- _normalize_conversations_list from lines 166-248. -/
def _normalize_conversations_list (usd_per_credit : ℚ) (payload : JVal) : Metrics :=
  (_extract_items payload).foldl (nclStep usd_per_credit) ⟨0, 0, 0⟩

/-- Is the item a Python dict. -/
def isJObj : JVal → Bool
  | .jobj _ => true
  | _ => false

/-- USD_PER_CREDIT, line 17, at its default env value 0.0001. The
    theorems that depend on it quantify over the configured value. -/
def USD_PER_CREDIT : ℚ := 1 / 10000

/- ===================== HTTP model ===================== -/

structure HttpRequest where
  method : String
  url : String
  json_body : Option (List (String × JVal))
  params : Option (List (String × JVal))

abbrev Trace := List HttpRequest

structure HttpResponse where
  status : ℕ
  data : JVal
  err : Option String

/-- The upstream: a response for the n-th request issued. -/
abbrev Oracle := ℕ → HttpRequest → HttpResponse

def BASE_URL : String := "https://api.elevenlabs.io"

def MAX_RETRIES : ℕ := 3

/-- _http from lines 36-53: on a transport error the status is 0 and the
    data None. The issued request is recorded on the trace. -/
def _http (oracle : Oracle) (tr : Trace) (req : HttpRequest) : HttpResponse × Trace :=
  let r := oracle tr.length req
  (match r.err with
   | some e => ⟨0, .jnull, some e⟩
   | none => r, tr ++ [req])

/-- _retryable from lines 56-57. -/
def _retryable (status : ℕ) : Bool :=
  status == 429 || (decide (500 ≤ status) && decide (status < 600))

/- ===================== _normalize_metrics ===================== -/

theorem jget_sizeOf_lt {fs : List (String × JVal)} {k : String} {v : JVal}
    (h : jget fs k = some v) : sizeOf v < sizeOf fs := by
  induction fs with
  | nil => simp [jget] at h
  | cons hd tl ih =>
      obtain ⟨k1, v1⟩ := hd
      rw [jget] at h
      split at h
      · injection h with h2
        subst h2
        simp only [List.cons.sizeOf_spec, Prod.mk.sizeOf_spec]
        omega
      · have := ih h
        simp only [List.cons.sizeOf_spec, Prod.mk.sizeOf_spec]
        omega

/-- One bucket row of the list branch of _normalize_metrics, lines 112-117. -/
def metricsRow (m : Metrics) (row : JVal) : Metrics :=
  match row with
  | .jobj r =>
      { calls := m.calls +
          _safe_int (pyOr (pyGet r "calls") (pyOr (pyGet r "total_calls") (.jnum 0))) 0,
        credits := m.credits +
          _safe_float (pyOr (pyGet r "credits") (pyOr (pyGet r "credits_consumed")
            (pyOr (pyGet r "total_credits") (.jnum 0)))) 0,
        duration_secs := m.duration_secs +
          _safe_float (pyOr (pyGet r "duration_secs") (pyOr (pyGet r "total_duration_secs")
            (pyOr (pyGet r "seconds") (.jnum 0)))) 0 }
  | _ => m

/-- The flat dict branch of _normalize_metrics, lines 129-132
    (nested dict.get defaults). -/
def flatReadMetrics (d : List (String × JVal)) : Metrics :=
  let calls := (jget d "calls").getD ((jget d "total_calls").getD
    ((jget d "outbound_calls").getD (.jnum 0)))
  let credits := (jget d "credits").getD ((jget d "total_credits").getD
    ((jget d "credits_consumed").getD (.jnum 0)))
  let dur := (jget d "duration_secs").getD ((jget d "total_duration_secs").getD
    ((jget d "seconds").getD (.jnum 0)))
  ⟨_safe_int calls 0, _safe_float credits 0, _safe_float dur 0⟩

/-- _normalize_metrics from lines 100-132: unwraps data/analytics
    sub-payloads recursively, sums list buckets, reads flat dicts. -/
def _normalize_metrics : JVal → Metrics
  | .jnull => ⟨0, 0, 0⟩
  | .jbool _ => ⟨0, 0, 0⟩
  | .jnum _ => ⟨0, 0, 0⟩
  | .jstr _ => ⟨0, 0, 0⟩
  | .jarr rows => rows.foldl metricsRow ⟨0, 0, 0⟩
  | .jobj d =>
      match hd : jget d "data" with
      | some (.jobj x) => _normalize_metrics (.jobj x)
      | some (.jarr x) => _normalize_metrics (.jarr x)
      | _ =>
          match ha : jget d "analytics" with
          | some (.jobj x) => _normalize_metrics (.jobj x)
          | some (.jarr x) => _normalize_metrics (.jarr x)
          | _ => flatReadMetrics d
  termination_by v => sizeOf v
  decreasing_by
  all_goals
    first
    | (have h9 := jget_sizeOf_lt hd; simp only [JVal.jobj.sizeOf_spec, JVal.jarr.sizeOf_spec] at *; omega)
    | (have h9 := jget_sizeOf_lt ha; simp only [JVal.jobj.sizeOf_spec, JVal.jarr.sizeOf_spec] at *; omega)

/- ===================== primary analytics attempt ===================== -/

def analyticsAgentUrl : String := BASE_URL ++ "/v1/convai/analytics/agent"
def conversationsUrl : String := BASE_URL ++ "/v1/convai/conversations"

/-- The four endpoint variants of get_agent_consumption_data, lines 363-369. -/
def analyticsVariants (agent_id : String) (s e : ℤ) : List HttpRequest :=
  [⟨"POST", analyticsAgentUrl,
     some [("agent_id", .jstr agent_id), ("start_unix_ts", .jnum (s : ℚ)), ("end_unix_ts", .jnum (e : ℚ))], none⟩,
   ⟨"POST", analyticsAgentUrl,
     some [("agentId", .jstr agent_id), ("startUnixTs", .jnum (s : ℚ)), ("endUnixTs", .jnum (e : ℚ))], none⟩,
   ⟨"GET", analyticsAgentUrl, none,
     some [("agent_id", .jstr agent_id), ("start_unix_ts", .jnum (s : ℚ)), ("end_unix_ts", .jnum (e : ℚ))]⟩,
   ⟨"GET", analyticsAgentUrl, none,
     some [("agentId", .jstr agent_id), ("startUnixTs", .jnum (s : ℚ)), ("endUnixTs", .jnum (e : ℚ))]⟩]

/-- _try_metrics_variant from lines 254-264; the debug string and the
    error dict are dropped (downstream only consults ok and status). -/
def _try_metrics_variant (oracle : Oracle) (tr : Trace) (v : HttpRequest) :
    (Option Metrics × ℕ) × Trace :=
  let p := _http oracle tr v
  match p.1.err with
  | some _ => ((none, p.1.status), p.2)
  | none =>
      if 200 ≤ p.1.status ∧ p.1.status < 300 then
        ((some (_normalize_metrics p.1.data), p.1.status), p.2)
      else ((none, p.1.status), p.2)

/-- One round over the variants, lines 376-381: first 2xx wins, the status
    of the last variant tried is kept. -/
def tryRound (oracle : Oracle) : List HttpRequest → Trace → ℕ → (Option Metrics × ℕ × Trace)
  | [], tr, last_status => (none, last_status, tr)
  | v :: vs, tr, _ =>
      match _try_metrics_variant oracle tr v with
      | ((some m, status), tr2) => (some m, status, tr2)
      | ((none, status), tr2) => tryRound oracle vs tr2 status

/-- The retry rounds of get_agent_consumption_data, lines 375-387: up to
    MAX_RETRIES rounds, abandoning early when the last status is 404.
    The sleep/backoff between rounds is not modelled (wall time).
    The initial last_status stands in for None; the variant list is
    nonempty so it is always overwritten before being consulted. -/
def consumptionRounds (oracle : Oracle) (variants : List HttpRequest) :
    ℕ → Trace → Option Metrics × Trace
  | 0, tr => (none, tr)
  | n + 1, tr =>
      match tryRound oracle variants tr 0 with
      | (some m, _, tr2) => (some m, tr2)
      | (none, last_status, tr2) =>
          if last_status = 404 then (none, tr2)
          else if n = 0 then (none, tr2)
          else consumptionRounds oracle variants n tr2

/- ===================== paginated fallback ===================== -/

/-- The initial query params of _paginate_conversations, lines 275-282:
    both the start and the end boundary of the window are sent. -/
def pagInitParams (agent_id : String) (s e : ℤ) : List (String × JVal) :=
  [("agent_id", .jstr agent_id),
   ("call_start_after_unix", .jnum (s : ℚ)),
   ("call_start_before_unix", .jnum (e : ℚ)),
   ("start_unix", .jnum (s : ℚ)),
   ("end_unix", .jnum (e : ℚ)),
   ("limit", .jnum 200)]

/-- Python dict item assignment. -/
def setParam (ps : List (String × JVal)) (k : String) (v : JVal) : List (String × JVal) :=
  if (jget ps k).isSome then
    ps.map (fun kv => if kv.1 = k then (kv.1, v) else kv)
  else ps ++ [(k, v)]

structure PagState where
  url : String
  params : List (String × JVal)
  next_token : JVal
  cursor : JVal
  offset : ℕ
  total_calls : ℤ
  total_credits : ℚ
  total_secs : ℚ
  pages : ℕ
  tr : Trace

/-- page_params construction, lines 295-302. -/
def pagPageParams (st : PagState) : List (String × JVal) :=
  let pp := st.params
  let pp := if st.next_token.truthy then
      setParam (setParam pp "page_token" st.next_token) "next_page_token" st.next_token
    else pp
  let pp := if st.cursor.truthy then setParam pp "cursor" st.cursor else pp
  if st.offset ≠ 0 then setParam pp "offset" (.jnum (st.offset : ℚ)) else pp

/-- Next-page detection and advancement, lines 316-353. The fields
    next_token and cursor are reassigned from the page data in every
    branch, as in the source. -/
def pagAdvance (limit : ℕ) (data : JVal) (st : PagState) : Bool × PagState :=
  let fs : List (String × JVal) := match data with | .jobj fs => fs | _ => []
  let isDict : Bool := match data with | .jobj _ => true | _ => false
  let next_url : Option String :=
    if isDict then
      match jget fs "next" with
      | some (.jstr s) => if s ≠ "" then some s else none
      | _ => none
    else none
  let next_token : JVal :=
    if isDict then pyOr (pyGet fs "next_page_token") (pyOr (pyGet fs "nextToken") (pyGet fs "pageToken"))
    else .jnull
  let cursor : JVal :=
    if isDict then pyOr (pyGet fs "next_cursor") (pyGet fs "cursor") else .jnull
  let has_more : Bool := if isDict then (pyGet fs "has_more").truthy else false
  let filled_page : Bool := decide (limit ≤ (_extract_items data).length)
  let st2 := { st with next_token := next_token, cursor := cursor }
  match next_url with
  | some u => (true, { st2 with url := u, params := [], offset := 0 })
  | none =>
      if cursor.truthy then (true, { st2 with url := conversationsUrl, offset := 0 })
      else if next_token.truthy then (true, { st2 with url := conversationsUrl, offset := 0 })
      else if has_more || filled_page then
        (true, { st2 with url := conversationsUrl, offset := st.offset + limit })
      else (false, st2)

/-- One iteration of the while loop of _paginate_conversations,
    lines 295-353: fetch, on error or non-2xx break, else accumulate the
    normalized page and advance. -/
def pagStep (oracle : Oracle) (usd_per_credit : ℚ) (limit : ℕ) (st : PagState) :
    Bool × PagState :=
  let page_params := pagPageParams st
  let req : HttpRequest := ⟨"GET", st.url, none, some page_params⟩
  let p := _http oracle st.tr req
  let resp := p.1
  if resp.err.isSome || !(decide (200 ≤ resp.status) && decide (resp.status < 300)) then
    (false, { st with tr := p.2 })
  else
    let norm := _normalize_conversations_list usd_per_credit resp.data
    let st2 := { st with
      total_calls := st.total_calls + norm.calls,
      total_credits := st.total_credits + norm.credits,
      total_secs := st.total_secs + norm.duration_secs,
      pages := st.pages + 1,
      tr := p.2 }
    pagAdvance limit resp.data st2

/-- The while loop, line 294: guard pages < 200. Every continuing
    iteration increments pages and entry requires pages < 200, so with
    initial pages = 0 there are at most 201 entries: fuel 201 makes this
    recursion behave exactly like the unbounded while loop. -/
def pagLoop (oracle : Oracle) (usd_per_credit : ℚ) (limit : ℕ) : ℕ → PagState → PagState
  | 0, st => st
  | fuel + 1, st =>
      if st.pages < 200 then
        match pagStep oracle usd_per_credit limit st with
        | (true, st2) => pagLoop oracle usd_per_credit limit fuel st2
        | (false, st2) => st2
      else st

structure PagTotals where
  calls : ℤ
  credits : ℚ
  duration_secs : ℚ
  pages : ℕ
  deriving DecidableEq

/-- _paginate_conversations from lines 267-355. -/
def _paginate_conversations (oracle : Oracle) (usd_per_credit : ℚ) (agent_id : String)
    (start_unix_ts end_unix_ts : ℤ) (tr : Trace) : PagTotals × Trace :=
  let st0 : PagState := {
    url := conversationsUrl,
    params := pagInitParams agent_id start_unix_ts end_unix_ts,
    next_token := .jnull, cursor := .jnull, offset := 0,
    total_calls := 0, total_credits := 0, total_secs := 0, pages := 0, tr := tr }
  let fin := pagLoop oracle usd_per_credit 200 201 st0
  (⟨fin.total_calls, fin.total_credits, fin.total_secs, fin.pages⟩, fin.tr)

structure ConsumptionResult where
  ok : Bool
  calls : ℤ
  credits : ℚ
  duration_secs : ℚ
  deriving DecidableEq

/-- get_agent_consumption_data from lines 358-391: primary analytics
    variants with retry rounds, then the paginated fallback. Both exits
    return ok True; the accumulated last_error is dead in the source and
    not modelled. -/
def get_agent_consumption_data (oracle : Oracle) (usd_per_credit : ℚ) (agent_id : String)
    (start_unix_ts end_unix_ts : ℤ) : ConsumptionResult × Trace :=
  match consumptionRounds oracle (analyticsVariants agent_id start_unix_ts end_unix_ts)
      MAX_RETRIES [] with
  | (some m, tr) => (⟨true, m.calls, m.credits, m.duration_secs⟩, tr)
  | (none, tr) =>
      match _paginate_conversations oracle usd_per_credit agent_id start_unix_ts end_unix_ts tr with
      | (tot, tr2) => (⟨true, tot.calls, tot.credits, tot.duration_secs⟩, tr2)

/- ===================== outbound batch dispatcher ===================== -/

def outboundCallUrl : String := BASE_URL ++ "/v1/convai/twilio/outbound-call"

/-- Python str(v) for the values this subsystem formats (container
    reprs simplified; the claims only exercise scalars). -/
def pyStrOf : JVal → String
  | .jnull => "None"
  | .jbool b => if b then "True" else "False"
  | .jstr s => s
  | .jnum q => if q.den = 1 then toString q.num else toString q.num ++ "/" ++ toString q.den
  | .jarr _ => "<list>"
  | .jobj _ => "<dict>"

/-- _build_dynamic_variables from lines 397-408: every key except
    phone_number, None dropped, string-coerced, blank dropped. -/
def _build_dynamic_variables (r : List (String × JVal)) : List (String × String) :=
  r.foldl
    (fun dyn kv =>
      if kv.1 = "phone_number" then dyn
      else
        match kv.2 with
        | .jnull => dyn
        | v =>
            let sv := (pyStrOf v).trim
            if sv = "" then dyn else dyn ++ [(kv.1, sv)])
    []

/-- The request payload of _post_outbound_call, lines 418-426. -/
def outboundPayload (agent_id phone_number_id to_number : String)
    (dyn : List (String × String)) : List (String × JVal) :=
  [("agent_id", .jstr agent_id),
   ("agent_phone_number_id", .jstr phone_number_id),
   ("to_number", .jstr to_number),
   ("conversation_initiation_client_data", .jobj
     [("type", .jstr "conversation_initiation_client_data"),
      ("dynamic_variables", .jobj (dyn.map (fun p => (p.1, .jstr p.2))))])]

/-- The attempt loop of _post_outbound_call, lines 428-447: fuel counts
    the attempts still allowed, so fuel 0 is the unreachable fallthrough
    return of line 447 and attempt >= MAX_RETRIES corresponds to
    fuel = 1. Sleep/backoff is not modelled (wall time). -/
def postCallLoop (oracle : Oracle) (payload : List (String × JVal)) :
    ℕ → Trace → (Bool × Option JVal × Option String × ℕ) × Trace
  | 0, tr => ((false, none, some "Unknown error", 0), tr)
  | fuel + 1, tr =>
      let p := _http oracle tr ⟨"POST", outboundCallUrl, some payload, none⟩
      let resp := p.1
      match resp.err with
      | some e =>
          if fuel = 0 then ((false, none, some ("HTTP error: " ++ e), 0), p.2)
          else postCallLoop oracle payload fuel p.2
      | none =>
          if 200 ≤ resp.status ∧ resp.status < 300 then
            ((true,
              some (match resp.data with
                    | .jobj fs => .jobj fs
                    | d => .jobj [("raw", d)]),
              none, resp.status), p.2)
          else if _retryable resp.status then
            if fuel = 0 then
              ((false, some resp.data,
                some ("ElevenLabs error " ++ toString resp.status ++ ": " ++ pyStrOf resp.data),
                resp.status), p.2)
            else postCallLoop oracle payload fuel p.2
          else
            ((false, some resp.data,
              some ("ElevenLabs error " ++ toString resp.status ++ ": " ++ pyStrOf resp.data),
              resp.status), p.2)

/-- _post_outbound_call from lines 411-447. -/
def _post_outbound_call (oracle : Oracle) (agent_id phone_number_id to_number : String)
    (dyn : List (String × String)) (tr : Trace) :
    (Bool × Option JVal × Option String × ℕ) × Trace :=
  postCallLoop oracle (outboundPayload agent_id phone_number_id to_number dyn) MAX_RETRIES tr

structure BatchFailure where
  phone_number : String
  error : String
  status : ℕ
  deriving DecidableEq

inductive BatchOutcome where
  | failure (error : String)
  | success (total sent failed : ℕ) (failures : List BatchFailure)
  deriving DecidableEq

/-- start_batch_call from lines 450 to the end of the file. The source
    file is truncated a few tokens into the failure-record literal of the
    non-ok branch and the post-loop return is missing entirely.
    Modelled from the spec: the dispatcher returns ok true with
    \x7btotal, sent, failed, failures, samples\x7d even when recipients
    failed, and each failure record carries the phone number, the error
    message and the status code. The validation and the per-recipient
    loop up to that point are translated from the source: the only
    fail-fast checks are that recipients_json is a list (always true in
    this embedding) and that agent_id and phone_number_id are nonempty;
    an empty recipients list is not rejected. -/
def start_batch_call (oracle : Oracle) (call_name agent_id phone_number_id : String)
    (recipients_json : List (List (String × JVal))) (tr : Trace) : BatchOutcome × Trace :=
  if agent_id = "" ∨ phone_number_id = "" then
    (.failure "Faltan agent_id o phone_number_id.", tr)
  else
    let step := fun (acc : ℕ × ℕ × List BatchFailure × Trace) (r : List (String × JVal)) =>
      let to_number := (pyStrOf ((jget r "phone_number").getD (.jstr ""))).trim
      if to_number = "" then
        (acc.1, acc.2.1 + 1, acc.2.2.1 ++ [⟨"", "Fila sin phone_number", 0⟩], acc.2.2.2)
      else
        let dyn := _build_dynamic_variables r
        let res := _post_outbound_call oracle agent_id phone_number_id to_number dyn acc.2.2.2
        if res.1.1 then (acc.1 + 1, acc.2.1, acc.2.2.1, res.2)
        else
          (acc.1, acc.2.1 + 1,
           acc.2.2.1 ++ [⟨to_number, (res.1.2.2.1).getD "", res.1.2.2.2⟩], res.2)
    let fin := recipients_json.foldl step (0, 0, [], tr)
    (.success recipients_json.length fin.1 fin.2.1 fin.2.2.1, fin.2.2.2)

/- ===================== Python keyword-argument binding ===================== -/

/-- Binding of a pure keyword-argument call against a parameter list with
    no defaults: it succeeds iff every keyword names a parameter and
    every parameter is supplied; otherwise Python raises TypeError before
    the function body runs. -/
def pyKwBindOk (params kwargs : List String) : Bool :=
  kwargs.all (fun k => params.contains k) && params.all (fun p => kwargs.contains p)

/-- Parameter names of get_agent_consumption_data,
    src/services/elevenlabs_service.py line 358. -/
def get_agent_consumption_data_pyParams : List String :=
  ["agent_id", "start_unix_ts", "end_unix_ts"]

/-- Keyword arguments of the /agent/data endpoint call,
    src/api/main.py lines 679-684. -/
def agent_data_call_kwargs : List String :=
  ["agent_id", "start_unix", "end_unix"]

/-- Parameter names of start_batch_call,
    src/services/elevenlabs_service.py lines 450-455. -/
def start_batch_call_pyParams : List String :=
  ["call_name", "agent_id", "phone_number_id", "recipients_json"]

/-- Keyword arguments of the /agent/start-batch-call endpoint call,
    src/api/main.py lines 774-780. -/
def batch_call_kwargs : List String :=
  ["batch_name", "agent_id", "phone_number_id", "recipients"]

/- ===================== HMAC-SHA256 ===================== -/
/- The hmac and hashlib modules used by _verify_hmac are the Python
   standard library, not code of this repository; they are embedded here
   as the FIPS 180-4 SHA-256 and RFC 2104 HMAC over byte lists. -/

def w32 (n : ℕ) : ℕ := n % 4294967296

def rotr32 (x n : ℕ) : ℕ := w32 ((x >>> n) ||| (x <<< (32 - n)))

def shaCh (x y z : ℕ) : ℕ := (x &&& y) ^^^ ((x ^^^ 4294967295) &&& z)

def shaMaj (x y z : ℕ) : ℕ := (x &&& y) ^^^ (x &&& z) ^^^ (y &&& z)

def bsig0 (x : ℕ) : ℕ := rotr32 x 2 ^^^ rotr32 x 13 ^^^ rotr32 x 22

def bsig1 (x : ℕ) : ℕ := rotr32 x 6 ^^^ rotr32 x 11 ^^^ rotr32 x 25

def ssig0 (x : ℕ) : ℕ := rotr32 x 7 ^^^ rotr32 x 18 ^^^ (x >>> 3)

def ssig1 (x : ℕ) : ℕ := rotr32 x 17 ^^^ rotr32 x 19 ^^^ (x >>> 10)

def shaK : List ℕ :=
  [1116352408, 1899447441, 3049323471, 3921009573, 961987163, 1508970993,
   2453635748, 2870763221, 3624381080, 310598401, 607225278, 1426881987,
   1925078388, 2162078206, 2614888103, 3248222580, 3835390401, 4022224774,
   264347078, 604807628, 770255983, 1249150122, 1555081692, 1996064986,
   2554220882, 2821834349, 2952996808, 3210313671, 3336571891, 3584528711,
   113926993, 338241895, 666307205, 773529912, 1294757372, 1396182291,
   1695183700, 1986661051, 2177026350, 2456956037, 2730485921, 2820302411,
   3259730800, 3345764771, 3516065817, 3600352804, 4094571909, 275423344,
   430227734, 506948616, 659060556, 883997877, 958139571, 1322822218,
   1537002063, 1747873779, 1955562222, 2024104815, 2227730452, 2361852424,
   2428436474, 2756734187, 3204031479, 3329325298]

def shaH0 : List ℕ :=
  [1779033703, 3144134277, 1013904242, 2773480762,
   1359893119, 2600822924, 528734635, 1541459225]

def extendSchedule : List ℕ → ℕ → List ℕ
  | acc, 0 => acc
  | acc, n + 1 =>
      let i := acc.length
      let w := w32 (ssig1 (acc.getD (i - 2) 0) + acc.getD (i - 7) 0 +
        ssig0 (acc.getD (i - 15) 0) + acc.getD (i - 16) 0)
      extendSchedule (acc ++ [w]) n

structure Sha8 where
  a : ℕ
  b : ℕ
  c : ℕ
  d : ℕ
  e : ℕ
  f : ℕ
  g : ℕ
  hh : ℕ

def shaRound (st : Sha8) (kw : ℕ × ℕ) : Sha8 :=
  let t1 := w32 (st.hh + bsig1 st.e + shaCh st.e st.f st.g + kw.1 + kw.2)
  let t2 := w32 (bsig0 st.a + shaMaj st.a st.b st.c)
  ⟨w32 (t1 + t2), st.a, st.b, st.c, w32 (st.d + t1), st.e, st.f, st.g⟩

def shaCompress (h : List ℕ) (block : List ℕ) : List ℕ :=
  let ws := extendSchedule block 48
  let init : Sha8 := ⟨h.getD 0 0, h.getD 1 0, h.getD 2 0, h.getD 3 0,
                      h.getD 4 0, h.getD 5 0, h.getD 6 0, h.getD 7 0⟩
  let fin := (shaK.zip ws).foldl shaRound init
  [w32 (h.getD 0 0 + fin.a), w32 (h.getD 1 0 + fin.b), w32 (h.getD 2 0 + fin.c),
   w32 (h.getD 3 0 + fin.d), w32 (h.getD 4 0 + fin.e), w32 (h.getD 5 0 + fin.f),
   w32 (h.getD 6 0 + fin.g), w32 (h.getD 7 0 + fin.hh)]

def sha256Pad (msg : List ℕ) : List ℕ :=
  let L := msg.length
  let z := (119 - (L % 64)) % 64
  msg ++ [128] ++ List.replicate z 0 ++
    ((List.range 8).map (fun j => ((8 * L) >>> (8 * (7 - j))) % 256))

def bytesToWords : List ℕ → List ℕ
  | b0 :: b1 :: b2 :: b3 :: rest =>
      ((b0 <<< 24) ||| (b1 <<< 16) ||| (b2 <<< 8) ||| b3) :: bytesToWords rest
  | _ => []

def wordBlocks : ℕ → List ℕ → List (List ℕ)
  | 0, _ => []
  | n + 1, ws => ws.take 16 :: wordBlocks n (ws.drop 16)

def wordsToBytes (ws : List ℕ) : List ℕ :=
  ws.foldr (fun w acc => (w >>> 24) % 256 :: (w >>> 16) % 256 :: (w >>> 8) % 256 :: w % 256 :: acc) []

/-- SHA-256 of a byte list, as a 32-byte list. -/
def sha256 (msg : List ℕ) : List ℕ :=
  let ws := bytesToWords (sha256Pad msg)
  let blocks := wordBlocks (ws.length / 16) ws
  wordsToBytes (blocks.foldl shaCompress shaH0)

/-- HMAC-SHA256 with byte-list key and message. -/
def hmacSha256 (key msg : List ℕ) : List ℕ :=
  let k0 := if 64 < key.length then sha256 key else key
  let k := k0 ++ List.replicate (64 - k0.length) 0
  let ipadded := k.map (fun b => b ^^^ 54)
  let opadded := k.map (fun b => b ^^^ 92)
  sha256 (opadded ++ sha256 (ipadded ++ msg))

def hexDigit (n : ℕ) : Char :=
  if n < 10 then Char.ofNat (48 + n) else Char.ofNat (87 + n)

def bytesToHex (bs : List ℕ) : String :=
  String.mk (bs.foldr (fun b acc => hexDigit (b / 16) :: hexDigit (b % 16) :: acc) [])

def utf8EncodeChar (c : Char) : List ℕ :=
  let n := c.toNat
  if n < 128 then [n]
  else if n < 2048 then [192 + n / 64, 128 + n % 64]
  else if n < 65536 then [224 + n / 4096, 128 + (n / 64) % 64, 128 + n % 64]
  else [240 + n / 262144, 128 + (n / 4096) % 64, 128 + (n / 64) % 64, 128 + n % 64]

/-- Python str.encode() / the raw request body bytes. -/
def strBytes (s : String) : List ℕ :=
  (s.data.map utf8EncodeChar).foldr (fun a b => a ++ b) []

/-- The hex digest of hmac.new(secret.encode(), msg, hashlib.sha256). -/
def hmacSha256Hex (secret msg : String) : String :=
  bytesToHex (hmacSha256 (strBytes secret) (strBytes msg))

/- ===================== _verify_hmac ===================== -/

/-- Python str.split(sep) (no collapsing of empty fields). -/
def pySplitChar (sep : Char) : List Char → List (List Char)
  | [] => [[]]
  | c :: t =>
      if c = sep then [] :: pySplitChar sep t
      else
        match pySplitChar sep t with
        | [] => [[c]]
        | h :: r => (c :: h) :: r

/-- Python str.strip(). -/
def pyStrip (l : List Char) : List Char :=
  ((l.dropWhile Char.isWhitespace).reverse.dropWhile Char.isWhitespace).reverse

/-- The header-parsing loop of _verify_hmac, src/api/main.py
    lines 204-207: later t= or v0= parts overwrite earlier ones, and
    part.split("=", 1)[1] is the text after the first equals sign. -/
def parseSigParts (parts : List (List Char)) : List Char × List Char :=
  parts.foldl
    (fun tv part =>
      let p := pyStrip part
      let tv1 := if ("t=".data).isPrefixOf p then (p.drop 2, tv.2) else tv
      if ("v0=".data).isPrefixOf p then (tv1.1, p.drop 3) else tv1)
    ([], [])

/-- _verify_hmac from src/api/main.py lines 196-226. The body is a
    string (the source decodes the bytes with errors ignored; this
    embedding covers valid UTF-8 bodies, for which re-encoding the
    concatenations reproduces the byte strings the source hashes). -/
def _verify_hmac (secret : String) (body : String) (sig_header : String) : Bool :=
  if sig_header.data.isEmpty then false
  else
    let parsed := parseSigParts (pySplitChar ',' sig_header.data)
    let t := String.mk parsed.1
    let v0 := String.mk parsed.2
    if v0 = "" then false
    else
      let expected_body := hmacSha256Hex secret body
      let expected_t_body := hmacSha256Hex secret (t ++ "." ++ body)
      let expected_tbody := hmacSha256Hex secret (t ++ body)
      v0 == expected_body || v0 == expected_t_body || v0 == expected_tbody

/- ===================== shared lemmas ===================== -/

theorem foldl_nclStep_calls (u : ℚ) (items : List JVal) (m : Metrics) :
    (items.foldl (nclStep u) m).calls = m.calls + (items.countP isJObj : ℤ) := by
  induction items generalizing m with
  | nil => simp [List.countP, List.countP.go]
  | cons it t ih =>
      rw [List.foldl_cons, ih, List.countP_cons]
      cases it <;> simp [nclStep, isJObj] <;> omega

/-- The call count of a normalized page is the number of dict items. -/
theorem nclist_calls_eq_countP (u : ℚ) (payload : JVal) :
    (_normalize_conversations_list u payload).calls =
      ((_extract_items payload).countP isJObj : ℤ) := by
  unfold _normalize_conversations_list
  rw [foldl_nclStep_calls]
  simp

theorem pagAdvance_pages (limit : ℕ) (data : JVal) (st : PagState) :
    ((pagAdvance limit data st).2).pages = st.pages := by
  unfold pagAdvance
  dsimp only
  repeat' split
  all_goals rfl

theorem pagAdvance_tr (limit : ℕ) (data : JVal) (st : PagState) :
    ((pagAdvance limit data st).2).tr = st.tr := by
  unfold pagAdvance
  dsimp only
  repeat' split
  all_goals rfl

theorem pagStep_pages (oracle : Oracle) (u : ℚ) (limit : ℕ) (st : PagState) :
    ((pagStep oracle u limit st).2).pages ≤ st.pages + 1 := by
  unfold pagStep
  dsimp only
  split
  · exact Nat.le_succ st.pages
  · rw [pagAdvance_pages]

theorem pagStep_tr (oracle : Oracle) (u : ℚ) (limit : ℕ) (st : PagState) :
    ((pagStep oracle u limit st).2).tr =
      st.tr ++ [⟨"GET", st.url, none, some (pagPageParams st)⟩] := by
  unfold pagStep
  dsimp only
  split
  · rfl
  · rw [pagAdvance_tr]
    rfl

theorem pagLoop_pages_le (oracle : Oracle) (u : ℚ) (limit : ℕ) :
    ∀ (fuel : ℕ) (st : PagState), st.pages ≤ 200 →
      (pagLoop oracle u limit fuel st).pages ≤ 200 := by
  intro fuel
  induction fuel with
  | zero => intro st h; exact h
  | succ n ih =>
      intro st h
      rw [pagLoop]
      split
      · rename_i hlt
        rcases hS : pagStep oracle u limit st with ⟨cont, st2⟩
        have h2 : st2.pages ≤ 200 := by
          have hp := pagStep_pages oracle u limit st
          rw [hS] at hp
          dsimp only at hp
          omega
        cases cont
        · exact h2
        · exact ih st2 h2
      · exact h

theorem pagLoop_tr_mono (oracle : Oracle) (u : ℚ) (limit : ℕ) :
    ∀ (fuel : ℕ) (st : PagState), ∃ rest,
      (pagLoop oracle u limit fuel st).tr = st.tr ++ rest := by
  intro fuel
  induction fuel with
  | zero => intro st; exact ⟨[], by simp [pagLoop]⟩
  | succ n ih =>
      intro st
      rw [pagLoop]
      split
      · rcases hS : pagStep oracle u limit st with ⟨cont, st2⟩
        have htr : st2.tr = st.tr ++ [⟨"GET", st.url, none, some (pagPageParams st)⟩] := by
          have := pagStep_tr oracle u limit st
          rw [hS] at this
          exact this
        cases cont
        · exact ⟨_, htr⟩
        · rcases ih st2 with ⟨rest, hrest⟩
          exact ⟨_, by rw [hrest, htr, List.append_assoc]⟩
      · exact ⟨[], by simp⟩

/-- The paginated fallback always returns at most 200 pages. -/
theorem paginate_pages_le (oracle : Oracle) (u : ℚ) (a : String) (s e : ℤ) (tr : Trace) :
    ((_paginate_conversations oracle u a s e tr).1).pages ≤ 200 := by
  unfold _paginate_conversations
  dsimp only
  exact pagLoop_pages_le oracle u 200 201 _ (Nat.zero_le 200)

/-- The first request of the paginated fallback carries the initial
    params dict unchanged. -/
theorem paginate_first_request (oracle : Oracle) (u : ℚ) (a : String) (s e : ℤ) :
    ((_paginate_conversations oracle u a s e []).2).head? =
      some ⟨"GET", conversationsUrl, none, some (pagInitParams a s e)⟩ := by
  unfold _paginate_conversations
  dsimp only
  rw [show (201 : ℕ) = 200 + 1 from rfl, pagLoop]
  split
  · rcases hS : pagStep oracle u 200
        ⟨conversationsUrl, pagInitParams a s e, .jnull, .jnull, 0, 0, 0, 0, 0, []⟩ with ⟨cont, st2⟩
    have htr : st2.tr = [⟨"GET", conversationsUrl, none, some (pagInitParams a s e)⟩] := by
      have h1 := pagStep_tr oracle u 200
        ⟨conversationsUrl, pagInitParams a s e, .jnull, .jnull, 0, 0, 0, 0, 0, []⟩
      rw [hS] at h1
      exact h1
    cases cont
    · simp [htr]
    · rcases pagLoop_tr_mono oracle u 200 200 st2 with ⟨rest, hrest⟩
      rw [hrest, htr]
      rfl
  · rename_i hge
    exact absurd (show (0:ℕ) < 200 by omega) hge

/- ===================== synthetic upstreams ===================== -/

/-- An upstream that fails every request at the transport level. -/
def oracleFailAll : Oracle := fun _ _ => ⟨0, .jnull, some "connection refused"⟩

/-- An upstream whose analytics endpoint answers 404 on every variant and
    whose conversation listing answers one final page with one record. -/
def oracle404conv : Oracle := fun _ req =>
  if req.url = analyticsAgentUrl then ⟨404, .jnull, none⟩
  else ⟨200, .jobj [("conversations", .jarr [.jobj []]), ("has_more", .jbool false)], none⟩

/-- A pathological upstream that reports has_more true with a valid
    cursor on every page. -/
def oracleAlwaysMore : Oracle := fun _ _ =>
  ⟨200, .jobj [("conversations", .jarr [.jobj []]), ("has_more", .jbool true), ("cursor", .jstr "c")], none⟩

/-- An upstream that always answers 503. -/
def oracle503 : Oracle := fun _ _ => ⟨503, .jstr "busy", none⟩

/-- An upstream that always answers 400. -/
def oracle400 : Oracle := fun _ _ => ⟨400, .jstr "bad request", none⟩

/- ===================== header-parsing lemmas ===================== -/

theorem pySplitChar_no_sep {sep : Char} {b : List Char} (h : ∀ c ∈ b, c ≠ sep) :
    pySplitChar sep b = [b] := by
  induction b with
  | nil => rfl
  | cons c t ih =>
      rw [pySplitChar, if_neg (h c (List.mem_cons_self c t)),
        ih (fun x hx => h x (List.mem_cons_of_mem c hx))]

theorem pySplitChar_append {sep : Char} {a b : List Char} (h : ∀ c ∈ a, c ≠ sep) :
    pySplitChar sep (a ++ sep :: b) = a :: pySplitChar sep b := by
  induction a with
  | nil => simp [pySplitChar]
  | cons c t ih =>
      rw [List.cons_append, pySplitChar, if_neg (h c (List.mem_cons_self c t)),
        ih (fun x hx => h x (List.mem_cons_of_mem c hx))]

theorem dropWhile_eq_self_of {p : Char → Bool} {l : List Char}
    (h : ∀ c ∈ l, p c = false) : l.dropWhile p = l := by
  cases l with
  | nil => rfl
  | cons c t => simp [List.dropWhile_cons, h c (List.mem_cons_self c t)]

theorem pyStrip_eq_self {l : List Char} (h : ∀ c ∈ l, c.isWhitespace = false) :
    pyStrip l = l := by
  unfold pyStrip
  rw [dropWhile_eq_self_of h,
    dropWhile_eq_self_of (fun c hc => h c (List.mem_reverse.mp hc)),
    List.reverse_reverse]

theorem isPrefixOf_self_append (a b : List Char) : a.isPrefixOf (a ++ b) = true := by
  induction a with
  | nil => simp [List.isPrefixOf]
  | cons c t ih => simp [List.isPrefixOf, ih]

theorem parseSigParts_header (t v0 : List Char)
    (ht : ∀ c ∈ t, c.isWhitespace = false)
    (hv : ∀ c ∈ v0, c.isWhitespace = false) :
    parseSigParts [('t' :: '=' :: t), ('v' :: '0' :: '=' :: v0)] = (t, v0) := by
  have hts : pyStrip ('t' :: '=' :: t) = 't' :: '=' :: t := by
    apply pyStrip_eq_self
    intro c hc
    simp only [List.mem_cons] at hc
    rcases hc with rfl | rfl | hc
    · rfl
    · rfl
    · exact ht c hc
  have hvs : pyStrip ('v' :: '0' :: '=' :: v0) = 'v' :: '0' :: '=' :: v0 := by
    apply pyStrip_eq_self
    intro c hc
    simp only [List.mem_cons] at hc
    rcases hc with rfl | rfl | rfl | hc
    · rfl
    · rfl
    · rfl
    · exact hv c hc
  have h1 : ("t=".data).isPrefixOf ('t' :: '=' :: t) = true := by
    have : "t=".data = ['t', '='] := rfl
    rw [this]
    exact isPrefixOf_self_append ['t', '='] t
  have h2 : ("v0=".data).isPrefixOf ('t' :: '=' :: t) = false := by
    have : "v0=".data = ['v', '0', '='] := rfl
    rw [this]
    simp [List.isPrefixOf]
  have h3 : ("t=".data).isPrefixOf ('v' :: '0' :: '=' :: v0) = false := by
    have : "t=".data = ['t', '='] := rfl
    rw [this]
    simp [List.isPrefixOf]
  have h4 : ("v0=".data).isPrefixOf ('v' :: '0' :: '=' :: v0) = true := by
    have : "v0=".data = ['v', '0', '='] := rfl
    rw [this]
    exact isPrefixOf_self_append ['v', '0', '='] v0
  unfold parseSigParts
  rw [List.foldl_cons, List.foldl_cons, List.foldl_nil]
  dsimp only
  rw [hts, hvs, h1, h2, h3, h4]
  simp

/- ===================== claims ===================== -/

unseal Rat.add Rat.mul Rat.inv Rat.sub in
/-- Claim C1, counterexample: with window [100, 200] the very first
    fallback request already carries call_start_after_unix = 100, the
    window START boundary, so not only the end boundary is sent; and a
    record whose start timestamp 50 lies before the window start (or
    would be unparseable) still contributes one call and its 7 seconds:
    there is no local post-filtering. -/
theorem c1_counterexample :
    jget (pagInitParams "agent" 100 200) "call_start_after_unix" = some (.jnum 100) ∧
    ((_paginate_conversations oracleFailAll USD_PER_CREDIT "agent" 100 200 []).2).head? =
      some ⟨"GET", conversationsUrl, none, some (pagInitParams "agent" 100 200)⟩ ∧
    (_normalize_conversations_list USD_PER_CREDIT
      (.jarr [.jobj [("start_unix", .jnum 50), ("duration_secs", .jnum 7)]])).calls = 1 ∧
    (_normalize_conversations_list USD_PER_CREDIT
      (.jarr [.jobj [("start_unix", .jnum 50), ("duration_secs", .jnum 7)]])).duration_secs = 7 :=
  ⟨rfl, rfl, rfl, rfl⟩

/-- Claim C1, amended: the conversation-listing fallback sends BOTH the
    start and the end boundary of the window to the upstream API (fields
    call_start_after_unix / start_unix and call_start_before_unix /
    end_unix of the first request), and performs no local
    post-filtering: every dict record of a fetched page contributes to
    the totals regardless of its start timestamp (the normalizer never
    receives the window at all). -/
theorem c1_amended :
    (∀ (oracle : Oracle) (u : ℚ) (a : String) (s e : ℤ),
      ((_paginate_conversations oracle u a s e []).2).head? =
        some ⟨"GET", conversationsUrl, none, some (pagInitParams a s e)⟩) ∧
    (∀ (a : String) (s e : ℤ),
      jget (pagInitParams a s e) "call_start_after_unix" = some (.jnum (s : ℚ)) ∧
      jget (pagInitParams a s e) "call_start_before_unix" = some (.jnum (e : ℚ))) ∧
    (∀ (u q : ℚ),
      (_normalize_conversations_list u (.jarr [.jobj [("start_unix", .jnum q)]])).calls = 1) :=
  ⟨fun oracle u a s e => paginate_first_request oracle u a s e,
   fun _ _ _ => ⟨rfl, rfl⟩,
   fun _ _ => rfl⟩

unseal Rat.add Rat.mul Rat.inv Rat.sub in
/-- Claim C2, counterexample: a record with duration 10 s and no credits
    field anywhere contributes 0 credits, not 10 times a nonzero
    configured rate. -/
theorem c2_counterexample :
    (_normalize_conversations_list USD_PER_CREDIT
      (.jarr [.jobj [("duration_secs", .jnum 10)]])).credits = 0 ∧
    (10 : ℚ) * USD_PER_CREDIT ≠ 0 :=
  ⟨rfl, by decide⟩

/-- Claim C2, amended: a record with no credits field anywhere and no
    USD field contributes exactly 0 credits whatever its duration; there
    is no duration-based credit estimate in the code. When a USD amount
    is present (and no credits field), the contribution is
    usd / usd_per_credit, where usd_per_credit is the externally
    configurable constant USD_PER_CREDIT. -/
theorem c2_amended (u d usd : ℚ) (hu : u ≠ 0) :
    (_normalize_conversations_list u (.jarr [.jobj [("duration_secs", .jnum d)]])).credits = 0 ∧
    (_normalize_conversations_list u
      (.jarr [.jobj [("duration_secs", .jnum d), ("cost_usd", .jnum usd)]])).credits = usd / u :=
  ⟨zero_add 0, zero_add (usd / u)⟩

/-- Claim C2, witness instance of the amended claim at rate 1/10000,
    duration 10 and cost 2 USD. -/
theorem c2_witness :
    (_normalize_conversations_list (1 / 10000)
      (.jarr [.jobj [("duration_secs", .jnum 10)]])).credits = 0 ∧
    (_normalize_conversations_list (1 / 10000)
      (.jarr [.jobj [("duration_secs", .jnum 10), ("cost_usd", .jnum 2)]])).credits =
        2 / (1 / 10000) :=
  ⟨(c2_amended (1 / 10000) 10 2 (by norm_num)).1,
   (c2_amended (1 / 10000) 10 2 (by norm_num)).2⟩

/-- Claim C3, counterexample: on an upstream where every request fails
    at the transport level (so the analytics attempt and the fallback
    both fail entirely), get_agent_consumption_data still returns
    ok True with all-zero totals, not an explicit failure result. -/
theorem c3_counterexample :
    (get_agent_consumption_data oracleFailAll USD_PER_CREDIT "agent" 0 100).1.ok = true ∧
    (get_agent_consumption_data oracleFailAll USD_PER_CREDIT "agent" 0 100).1 =
      ⟨true, 0, 0, 0⟩ :=
  ⟨rfl, rfl⟩

/-- Claim C3, amended: get_agent_consumption_data never returns a
    failure result for any upstream behaviour; when the fallback fails
    entirely the caller receives a success result with zero totals,
    indistinguishable from genuine zero usage. -/
theorem c3_amended :
    (∀ (oracle : Oracle) (u : ℚ) (a : String) (s e : ℤ),
      (get_agent_consumption_data oracle u a s e).1.ok = true) ∧
    (get_agent_consumption_data oracleFailAll USD_PER_CREDIT "other" 7 9).1 =
      ⟨true, 0, 0, 0⟩ := by
  constructor
  · intro oracle u a s e
    unfold get_agent_consumption_data
    rcases hC : consumptionRounds oracle (analyticsVariants a s e) MAX_RETRIES [] with ⟨m?, tr⟩
    cases m? with
    | some m => rfl
    | none =>
        rcases hP : _paginate_conversations oracle u a s e tr with ⟨tot, tr2⟩
        rfl
  · rfl

/-- Claim C4: both panel endpoint call sites bind keyword arguments that
    do not exist among the parameters of the service functions
    (start_unix and end_unix versus start_unix_ts and end_unix_ts;
    batch_name and recipients versus call_name and recipients_json), so
    each invocation raises TypeError before the service function body
    runs and the endpoints cannot return a successful result. -/
theorem c4_kwargs_type_error :
    pyKwBindOk get_agent_consumption_data_pyParams agent_data_call_kwargs = false ∧
    pyKwBindOk start_batch_call_pyParams batch_call_kwargs = false :=
  ⟨rfl, rfl⟩

unseal Rat.add Rat.mul Rat.inv Rat.sub in
/-- Claim C5: for every upstream the pagination loop returns at most the
    hard cap of 200 pages, and on the synthetic upstream that always
    reports has_more true with a valid cursor it stops at exactly 200
    pages with the partial aggregate of those 200 pages (one call per
    page here). -/
theorem c5_pagination_cap :
    (∀ (oracle : Oracle) (u : ℚ) (a : String) (s e : ℤ) (tr : Trace),
      ((_paginate_conversations oracle u a s e tr).1).pages ≤ 200) ∧
    (_paginate_conversations oracleAlwaysMore USD_PER_CREDIT "a" 0 100 []).1.pages = 200 ∧
    (_paginate_conversations oracleAlwaysMore USD_PER_CREDIT "a" 0 100 []).1.calls = 200 ∧
    (_paginate_conversations oracleAlwaysMore USD_PER_CREDIT "a" 0 100 []).1.credits = 0 ∧
    (_paginate_conversations oracleAlwaysMore USD_PER_CREDIT "a" 0 100 []).1.duration_secs = 0 :=
  ⟨paginate_pages_le, rfl, rfl, rfl, rfl⟩

unseal Rat.add Rat.mul Rat.inv Rat.sub in
/-- Claim C6: on an upstream whose analytics endpoint answers 404 to
    every variant, get_agent_consumption_data issues exactly 4 analytics
    requests (one round over the four variants, fewer than the
    3 x 4 = 12 of three full retry rounds) and proceeds to the
    conversation-listing fallback, whose single record is returned. -/
theorem c6_404_short_circuit :
    ((get_agent_consumption_data oracle404conv USD_PER_CREDIT "a" 0 100).2.countP
        (fun r => r.url == analyticsAgentUrl)) = 4 ∧
    4 < MAX_RETRIES * (analyticsVariants "a" 0 100).length ∧
    (get_agent_consumption_data oracle404conv USD_PER_CREDIT "a" 0 100).1.ok = true ∧
    (get_agent_consumption_data oracle404conv USD_PER_CREDIT "a" 0 100).1.calls = 1 :=
  ⟨rfl, by decide, rfl, rfl⟩

/-- Claim C7: a status is retryable iff it is 429 or in [500, 600); on
    an upstream that always answers 503 the outbound-call request is
    attempted exactly MAX_RETRIES = 3 times and then the exhausted
    retryable error is reported with the upstream status and body; on a
    non-retryable 400 exactly one attempt is made. -/
theorem c7_retry_policy :
    (∀ s : ℕ, _retryable s = true ↔ (s = 429 ∨ (500 ≤ s ∧ s < 600))) ∧
    (_post_outbound_call oracle503 "a" "p" "+15550000001" [] []).2.length = 3 ∧
    (_post_outbound_call oracle503 "a" "p" "+15550000001" [] []).1 =
      (false, some (.jstr "busy"), some "ElevenLabs error 503: busy", 503) ∧
    (_post_outbound_call oracle400 "a" "p" "+15550000001" [] []).2.length = 1 ∧
    (_post_outbound_call oracle400 "a" "p" "+15550000001" [] []).1.1 = false := by
  refine ⟨?_, rfl, rfl, rfl, rfl⟩
  intro s
  unfold _retryable
  simp

/-- Claim C8, counterexample: a record whose success indicator is
    explicitly the failure value is still counted as a call. -/
theorem c8_counterexample :
    (_normalize_conversations_list USD_PER_CREDIT
      (.jarr [.jobj [("call_successful", .jstr "failure")]])).calls = 1 :=
  rfl

/-- Claim C8, amended: the normalizer counts every dict record of a page
    as a call, consulting no success indicator at all: the call count is
    exactly the number of dict items, and in particular a page holding a
    record marked as failure and an empty record counts 2 calls. -/
theorem c8_amended :
    (∀ (u : ℚ) (payload : JVal),
      (_normalize_conversations_list u payload).calls =
        ((_extract_items payload).countP isJObj : ℤ)) ∧
    (_normalize_conversations_list USD_PER_CREDIT
      (.jarr [.jobj [("call_successful", .jstr "failure")], .jobj []])).calls = 2 :=
  ⟨nclist_calls_eq_countP, rfl⟩

/-- Claim C9, counterexample: with an empty recipients list and nonempty
    ids the dispatcher does not fail fast with an error; it returns the
    ok outcome with zero counts, and the unchanged empty trace shows no
    outbound request was attempted. -/
theorem c9_counterexample :
    start_batch_call oracleFailAll "n" "a" "p" [] [] = (.success 0 0 0 [], []) :=
  rfl

/-- Claim C9, amended: the dispatcher fails fast (with no outbound
    request) only when agent_id or phone_number_id is empty; an empty
    recipients list passes validation and yields a success outcome with
    total = sent = failed = 0 and no outbound request attempted (the
    trace is unchanged). -/
theorem c9_amended (oracle : Oracle) (cn agent phone : String) (tr : Trace) :
    (∀ rs, (agent = "" ∨ phone = "") →
      start_batch_call oracle cn agent phone rs tr =
        (.failure "Faltan agent_id o phone_number_id.", tr)) ∧
    (agent ≠ "" → phone ≠ "" →
      start_batch_call oracle cn agent phone [] tr = (.success 0 0 0 [], tr)) := by
  constructor
  · intro rs h
    unfold start_batch_call
    rw [if_pos h]
  · intro h1 h2
    unfold start_batch_call
    rw [if_neg (by rintro (h | h) <;> [exact h1 h; exact h2 h])]
    rfl

/-- Claim C9, witness instance of the amended claim: an empty agent id
    fails fast, and an empty recipients list with nonempty ids returns
    the zero-count success with no request. -/
theorem c9_witness :
    start_batch_call oracleFailAll "n" "" "p" [[]] [] =
      (.failure "Faltan agent_id o phone_number_id.", []) ∧
    start_batch_call oracleFailAll "n" "a" "p" [] [] = (.success 0 0 0 [], []) :=
  ⟨(c9_amended oracleFailAll "n" "" "p" []).1 [[]] (Or.inl rfl),
   (c9_amended oracleFailAll "n" "a" "p" []).2 (by decide) (by decide)⟩

/-- Claim C10: for a header of the well-formed shape t=<t>,v0=<v0>
    (fields free of commas and whitespace, v0 nonempty), verification
    accepts iff v0 equals the hex HMAC-SHA256 under the shared secret of
    one of the three candidate messages: the body alone, t.body, or
    t followed by body. -/
theorem c10_hmac_any_of_three (secret body t v0 : String)
    (ht : ∀ c ∈ t.data, c.isWhitespace = false ∧ c ≠ ',')
    (hv : ∀ c ∈ v0.data, c.isWhitespace = false ∧ c ≠ ',')
    (hv0 : v0 ≠ "") :
    _verify_hmac secret body ("t=" ++ t ++ ",v0=" ++ v0) = true ↔
      (v0 = hmacSha256Hex secret body ∨
       v0 = hmacSha256Hex secret (t ++ "." ++ body) ∨
       v0 = hmacSha256Hex secret (t ++ body)) := by
  have hdata : ("t=" ++ t ++ ",v0=" ++ v0).data =
      ('t' :: '=' :: t.data) ++ ',' :: ('v' :: '0' :: '=' :: v0.data) := by
    simp only [String.data_append, List.append_assoc]
    rfl
  have hsplit : pySplitChar ',' (('t' :: '=' :: t.data) ++ ',' :: ('v' :: '0' :: '=' :: v0.data)) =
      [('t' :: '=' :: t.data), ('v' :: '0' :: '=' :: v0.data)] := by
    rw [pySplitChar_append, pySplitChar_no_sep]
    · intro c hc
      simp only [List.mem_cons] at hc
      rcases hc with rfl | rfl | rfl | hc
      · decide
      · decide
      · decide
      · exact (hv c hc).2
    · intro c hc
      simp only [List.mem_cons] at hc
      rcases hc with rfl | rfl | hc
      · decide
      · decide
      · exact (ht c hc).2
  have hparse := parseSigParts_header t.data v0.data
    (fun c hc => (ht c hc).1) (fun c hc => (hv c hc).1)
  unfold _verify_hmac
  rw [hdata, hsplit, hparse]
  dsimp only
  rw [if_neg (show ¬((('t' :: '=' :: t.data) ++ ',' :: ('v' :: '0' :: '=' :: v0.data)).isEmpty = true) by simp)]
  rw [if_neg (show ¬(String.mk v0.data = "") from hv0)]
  have hmkt : String.mk t.data = t := rfl
  have hmkv : String.mk v0.data = v0 := rfl
  rw [hmkt, hmkv]
  simp [Bool.or_eq_true, beq_iff_eq, or_assoc]

set_option maxRecDepth 40000 in
/-- Claim C10, witness scenario: with secret s, body hello, timestamp
    1000 and v0 computed as the HMAC-SHA256 of the body alone,
    verification succeeds. -/
theorem c10_witness :
    _verify_hmac "s" "hello" ("t=" ++ "1000" ++ ",v0=" ++ hmacSha256Hex "s" "hello") = true :=
  (c10_hmac_any_of_three "s" "hello" "1000" (hmacSha256Hex "s" "hello")
    (by decide) (by decide) (by decide)).mpr (Or.inl rfl)
